import Mathlib

/-!
Verification of the RISC-V privileged-architecture helpers of
`target/riscv/cpu_helper.c` (QEMU RISC-V target, H-extension branch):
the interrupt arbiter `riscv_cpu_local_irq_pending`, the hypervisor
background-register swap `riscv_cpu_swap_background_regs`, the page-table
walker `get_physical_address`, and the trap dispatcher
`riscv_cpu_do_interrupt`.

The embedding targets the 64-bit system build (`TARGET_RISCV64`,
`CONFIG_USER_ONLY` undefined): `target_ulong` is a 64-bit word, modelled
as `Nat` with explicit masking by `M64 = 2^64 - 1` where the C code
truncates.  `mip`/`vsip` are 32-bit (`uint32_t`) as in the source.
Guest physical memory is a pure function `Nat → Nat` giving the PTE word
loaded at an address; since the embedded memory is immutable the PTE
compare-and-swap of the A/D update always succeeds and the `restart`
path is never taken.

Bit positions of the CSR fields (RISC-V Privileged ISA; the repository
defines them in `target/riscv/cpu_bits.h`, which is outside the given
sources, so the values are the architectural ones restated by the spec
as bit-exact).
-/

namespace QemuRiscv

/-- All-ones 64-bit word: `(target_ulong)-1`. -/
def M64 : Nat := 2 ^ 64 - 1

/-- All-ones 32-bit word, for the `uint32_t` pending-interrupt CSRs. -/
def M32 : Nat := 2 ^ 32 - 1

/-- The C helper `get_field(reg, mask)` where `mask = (2^width - 1) <<< shift`:
extract `width` bits of `reg` starting at `shift`. -/
def getf (reg shift width : Nat) : Nat :=
  (reg >>> shift) &&& (2 ^ width - 1)

/-- The C helper `set_field(reg, mask, val)` where `mask = (2^width - 1) <<< shift`:
replace `width` bits of `reg` starting at `shift` by `val` (the C
expression also truncates `reg` to 64 bits through `~mask`). -/
def setf (reg shift width v : Nat) : Nat :=
  (reg &&& (M64 ^^^ ((2 ^ width - 1) <<< shift))) |||
    ((v &&& (2 ^ width - 1)) <<< shift)

/-! ### Privilege levels and exception causes -/

def PRV_U : Nat := 0
def PRV_S : Nat := 1
def PRV_H : Nat := 2
def PRV_M : Nat := 3

def RISCV_EXCP_U_ECALL : Nat := 8
def RISCV_EXCP_HS_ECALL : Nat := 9
def RISCV_EXCP_VS_ECALL : Nat := 10
def RISCV_EXCP_M_ECALL : Nat := 11

/-- Constant `RISCV_EXCP_INT_FLAG = 0x80000000` (`exception_index` is 32 bits). -/
def RISCV_EXCP_INT_FLAG : Nat := 0x80000000

/-- Constant `RISCV_EXCP_INT_MASK = 0x7fffffff`. -/
def RISCV_EXCP_INT_MASK : Nat := 0x7fffffff

/-! ### mstatus / mie / mip field positions (shift, width) -/

def MSTATUS_SIE_SHIFT : Nat := 1
def MSTATUS_MIE_SHIFT : Nat := 3
def MSTATUS_SPIE_SHIFT : Nat := 5
def MSTATUS_MPIE_SHIFT : Nat := 7
def MSTATUS_SPP_SHIFT : Nat := 8
def MSTATUS_MPP_SHIFT : Nat := 11
def MSTATUS_FS_SHIFT : Nat := 13
def MSTATUS_MPRV_SHIFT : Nat := 17
def MSTATUS_SUM_SHIFT : Nat := 18
def MSTATUS_MXR_SHIFT : Nat := 19
/-- Legacy (priv < 1.10) `MSTATUS_VM` field: bits 28..24. -/
def MSTATUS_VM_SHIFT : Nat := 24
/-- H-extension draft `MSTATUS_MTL` bit. -/
def MSTATUS_MTL_SHIFT : Nat := 38
/-- H-extension draft `MSTATUS_MPV` bit. -/
def MSTATUS_MPV_SHIFT : Nat := 39
/-- Field `MSTATUS64_UXL`: bits 33..32 (64-bit build only). -/
def MSTATUS_UXL_SHIFT : Nat := 32

/-- Mask swapped by `riscv_cpu_swap_background_regs`:
`MXR | SUM | FS | SPP | SPIE | SIE`, plus `MSTATUS64_UXL` on RV64. -/
def mstatusSwapMask : Nat :=
  (1 <<< MSTATUS_MXR_SHIFT) ||| (1 <<< MSTATUS_SUM_SHIFT) |||
  (3 <<< MSTATUS_FS_SHIFT) ||| (1 <<< MSTATUS_SPP_SHIFT) |||
  (1 <<< MSTATUS_SPIE_SHIFT) ||| (1 <<< MSTATUS_SIE_SHIFT) |||
  (3 <<< MSTATUS_UXL_SHIFT)

/-- Mask `MIE_SEIE | MIE_STIE | MIE_SSIE` = `MIP_SEIP | MIP_STIP | MIP_SSIP`:
bits 9, 5, 1. -/
def sieSwapMask : Nat := (1 <<< 9) ||| (1 <<< 5) ||| (1 <<< 1)

/-! ### hstatus field positions (H-extension draft) -/

def HSTATUS_SPV_SHIFT : Nat := 7
def HSTATUS_SP2P_SHIFT : Nat := 8
def HSTATUS_SP2V_SHIFT : Nat := 9
def HSTATUS_STL_SHIFT : Nat := 6

/-! ### virt state word

Modelled from the spec: the `virt` word carries two independent flags,
virt-enabled (V) and force-HS-exception; `VIRT_MODE_*` and
`FORCE_HS_EXCEP_*` are defined in the repository's `cpu.h`, outside the
given sources, so the two flags are placed at bits 0 and 1. -/

def VIRT_MODE_SHIFT : Nat := 0
def FORCE_HS_EXCEP_SHIFT : Nat := 1

/-! ### satp / page-table constants -/

def PGSHIFT : Nat := 12
/-- Field `SATP64_PPN`: bits 43..0. -/
def SATP_PPN_WIDTH : Nat := 44
/-- Field `SATP64_MODE`: bits 63..60. -/
def SATP_MODE_SHIFT : Nat := 60

def VM_1_10_MBARE : Nat := 0
def VM_1_10_SV32 : Nat := 1
def VM_1_10_SV39 : Nat := 8
def VM_1_10_SV48 : Nat := 9
def VM_1_10_SV57 : Nat := 10

def VM_1_09_MBARE : Nat := 0
def VM_1_09_SV32 : Nat := 8
def VM_1_09_SV39 : Nat := 9
def VM_1_09_SV48 : Nat := 10

def PTE_V : Nat := 1
def PTE_R : Nat := 2
def PTE_W : Nat := 4
def PTE_X : Nat := 8
def PTE_U : Nat := 16
def PTE_A : Nat := 64
def PTE_D : Nat := 128
def PTE_PPN_SHIFT : Nat := 10

def PAGE_READ : Nat := 1
def PAGE_WRITE : Nat := 2
def PAGE_EXEC : Nat := 4

/-! ## Bit-level toolkit -/

theorem lor_eq_zero_iff (a b : Nat) : a ||| b = 0 ↔ a = 0 ∧ b = 0 := by
  constructor
  · intro h
    constructor
    · apply Nat.eq_of_testBit_eq
      intro i
      have := congrArg (fun x => Nat.testBit x i) h
      simp only [Nat.testBit_lor, Nat.zero_testBit] at this ⊢
      exact (Bool.or_eq_false_iff.mp this).1
    · apply Nat.eq_of_testBit_eq
      intro i
      have := congrArg (fun x => Nat.testBit x i) h
      simp only [Nat.testBit_lor, Nat.zero_testBit] at this ⊢
      exact (Bool.or_eq_false_iff.mp this).2
  · rintro ⟨ha, hb⟩
    simp [ha, hb]

theorem land_right_comm (a b c : Nat) : a &&& b &&& c = a &&& c &&& b := by
  rw [Nat.land_assoc, Nat.land_comm b c, Nat.land_assoc]

theorem land_lor_distrib_right (a b m : Nat) :
    (a ||| b) &&& m = (a &&& m) ||| (b &&& m) := by
  apply Nat.eq_of_testBit_eq
  intro i
  simp only [Nat.testBit_land, Nat.testBit_lor]
  cases a.testBit i <;> cases b.testBit i <;> cases m.testBit i <;> rfl

theorem land_land_eq_zero (x y z : Nat) (h : y &&& z = 0) :
    x &&& y &&& z = 0 := by
  rw [Nat.land_assoc, h, Nat.and_zero]

/-- Bits of `getf`. -/
theorem testBit_getf (x s w i : Nat) :
    (getf x s w).testBit i = (x.testBit (s + i) && decide (i < w)) := by
  simp [getf, Nat.testBit_land, Nat.testBit_shiftRight,
    Nat.testBit_two_pow_sub_one, Bool.and_comm]

/-- Bits of `setf` for a field lying inside the 64-bit word: inside the
field the bits come from the value, outside they come from `reg`
truncated to 64 bits. -/
theorem testBit_setf (x s w v i : Nat) (h64 : s + w ≤ 64) :
    (setf x s w v).testBit i =
      if s ≤ i ∧ i < s + w then v.testBit (i - s)
      else (x.testBit i && decide (i < 64)) := by
  simp only [setf, Nat.testBit_lor, Nat.testBit_land, Nat.testBit_xor,
    Nat.testBit_shiftLeft, Nat.testBit_two_pow_sub_one, M64]
  by_cases h1 : s ≤ i
  · by_cases h2 : i < s + w
    · have hw : i - s < w := by omega
      have hi64 : i < 64 := by omega
      simp [h1, h2, hw, ge_iff_le, hi64]
    · have hw : ¬ (i - s < w) := by omega
      have hns : ¬ (s ≤ i ∧ i < s + w) := by omega
      simp [hns, ge_iff_le, h1, hw, h2]
  · have hns : ¬ (s ≤ i ∧ i < s + w) := by omega
    simp [hns, ge_iff_le, h1]

/-- Reading a field just written by `setf`. -/
theorem getf_setf_self (x s w v : Nat) (h64 : s + w ≤ 64) :
    getf (setf x s w v) s w = v &&& (2 ^ w - 1) := by
  apply Nat.eq_of_testBit_eq
  intro i
  rw [testBit_getf]
  simp only [Nat.testBit_land, Nat.testBit_two_pow_sub_one]
  by_cases hi : i < w
  · rw [testBit_setf x s w v (s + i) h64]
    have : s ≤ s + i ∧ s + i < s + w := by omega
    simp [this, hi]
  · simp [hi]

/-- Reading a field disjoint from the one written by `setf`. -/
theorem getf_setf_disjoint (x s1 w1 v s2 w2 : Nat)
    (h64 : s2 + w2 ≤ 64) (h64' : s1 + w1 ≤ 64)
    (hd : s1 + w1 ≤ s2 ∨ s2 + w2 ≤ s1) :
    getf (setf x s1 w1 v) s2 w2 = getf x s2 w2 := by
  apply Nat.eq_of_testBit_eq
  intro i
  rw [testBit_getf, testBit_getf]
  by_cases hi : i < w2
  · rw [testBit_setf x s1 w1 v (s2 + i) h64']
    have hnot : ¬ (s1 ≤ s2 + i ∧ s2 + i < s1 + w1) := by omega
    have h64i : s2 + i < 64 := by omega
    simp [hnot, h64i]
  · simp [hi]

/-- Reading a field kept by a mask-mix `(x &&& ~m) ||| (y &&& m)` whose
mask has no bit in the field. -/
theorem getf_maskmix_keep (x y m s w : Nat) (h64 : s + w ≤ 64)
    (hm : ∀ j, j < w → m.testBit (s + j) = false) :
    getf ((x &&& (M64 ^^^ m)) ||| (y &&& m)) s w = getf x s w := by
  apply Nat.eq_of_testBit_eq
  intro i
  rw [testBit_getf, testBit_getf]
  by_cases hi : i < w
  · have hmb := hm i hi
    have h64i : s + i < 64 := by omega
    simp only [Nat.testBit_lor, Nat.testBit_land, Nat.testBit_xor, M64,
      Nat.testBit_two_pow_sub_one, hmb, h64i]
    cases x.testBit (s + i) <;> cases y.testBit (s + i) <;> simp
  · simp [hi]

/-- Recombination `x &&& ~m ||| x &&& m = x` for a 64-bit `x`. -/
theorem land_compl_lor_land (x m : Nat) (hx : x < 2 ^ 64) :
    (x &&& (M64 ^^^ m)) ||| (x &&& m) = x := by
  apply Nat.eq_of_testBit_eq
  intro i
  simp only [Nat.testBit_lor, Nat.testBit_land, Nat.testBit_xor, M64,
    Nat.testBit_two_pow_sub_one]
  by_cases hi : i < 64
  · simp only [hi, decide_eq_true_eq, iff_true]
    cases hx' : x.testBit i <;> cases hm : m.testBit i <;> simp [hi]
  · have : x.testBit i = false := by
      apply Nat.testBit_eq_false_of_lt
      calc x < 2 ^ 64 := hx
        _ ≤ 2 ^ i := Nat.pow_le_pow_right (by norm_num) (by omega)
    simp [this, hi]

/-- Identity `(m >>> 2) <<< 2 = m &&& ~3` for a 64-bit `m`. -/
theorem shiftr2_shiftl2 (m : Nat) (hm : m < 2 ^ 64) :
    (m >>> 2) <<< 2 = m &&& (M64 ^^^ 3) := by
  apply Nat.eq_of_testBit_eq
  intro i
  simp only [Nat.testBit_shiftLeft, Nat.testBit_shiftRight, Nat.testBit_land,
    Nat.testBit_xor, M64, Nat.testBit_two_pow_sub_one, ge_iff_le]
  by_cases h2 : 2 ≤ i
  · by_cases hi : i < 64
    · have h3 : (3 : Nat).testBit i = false := by
        apply Nat.testBit_eq_false_of_lt
        calc (3 : Nat) < 2 ^ 2 := by norm_num
          _ ≤ 2 ^ i := Nat.pow_le_pow_right (by norm_num) h2
      have : 2 + (i - 2) = i := by omega
      simp [h2, this, h3, hi]
    · have : m.testBit i = false := by
        apply Nat.testBit_eq_false_of_lt
        calc m < 2 ^ 64 := hm
          _ ≤ 2 ^ i := Nat.pow_le_pow_right (by norm_num) (by omega)
      have h2' : 2 + (i - 2) = i := by omega
      simp [h2, h2', this, hi]
  · interval_cases i <;> simp [Nat.testBit_succ]

/-! ## Hart state

The fields of `CPURISCVState` read or written by the functions under
study (`target_ulong` fields as `Nat`, 64-bit by convention; `mip` and
`vsip` are the `uint32_t` pending words). -/

structure CPURISCVState where
  priv : Nat
  pc : Nat
  mstatus : Nat
  vsstatus : Nat
  mie : Nat
  vsie : Nat
  mip : Nat
  vsip : Nat
  mideleg : Nat
  medeleg : Nat
  hideleg : Nat
  hedeleg : Nat
  hstatus : Nat
  mtvec : Nat
  stvec : Nat
  vstvec : Nat
  mepc : Nat
  sepc : Nat
  vsepc : Nat
  mcause : Nat
  scause : Nat
  vscause : Nat
  mbadaddr : Nat
  sbadaddr : Nat
  vstval : Nat
  mscratch : Nat
  sscratch : Nat
  vsscratch : Nat
  satp : Nat
  vsatp : Nat
  sptbr : Nat
  badaddr : Nat
  virt : Nat
  load_res : Nat
  miclaim : Nat
  hasRVH : Bool
  hasMMU : Bool
  hasPMP : Bool
  privVer110 : Bool
  deriving DecidableEq, Repr

/-- Predicate `riscv_has_ext(env, RVH)`. -/
def riscv_has_ext_RVH (s : CPURISCVState) : Bool := s.hasRVH

/-- Predicate `riscv_cpu_virt_enabled`. -/
def riscv_cpu_virt_enabled (s : CPURISCVState) : Bool :=
  if ¬ s.hasRVH then false
  else getf s.virt VIRT_MODE_SHIFT 1 = 1

/-- Setter `riscv_cpu_set_virt_enabled` (the TLB flush is an external effect
with no bearing on the hart state). -/
def riscv_cpu_set_virt_enabled (s : CPURISCVState) (enable : Bool) :
    CPURISCVState :=
  if ¬ s.hasRVH then s
  else { s with virt := setf s.virt VIRT_MODE_SHIFT 1 (if enable then 1 else 0) }

/-- Predicate `riscv_cpu_force_hs_excep_enabled`. -/
def riscv_cpu_force_hs_excep_enabled (s : CPURISCVState) : Bool :=
  if ¬ s.hasRVH then false
  else getf s.virt FORCE_HS_EXCEP_SHIFT 1 = 1

/-- Setter `riscv_cpu_set_force_hs_excep`. -/
def riscv_cpu_set_force_hs_excep (s : CPURISCVState) (enable : Bool) :
    CPURISCVState :=
  if ¬ s.hasRVH then s
  else { s with virt := setf s.virt FORCE_HS_EXCEP_SHIFT 1 (if enable then 1 else 0) }

/-- Count-trailing-zeros of a 64-bit word by binary recursion
(`ctz64`; only ever applied to nonzero words by the source). -/
def ctzAux : Nat → Nat → Nat
  | 0, _ => 0
  | fuel + 1, x => if x % 2 = 1 then 0 else 1 + ctzAux fuel (x / 2)

def ctz64 (x : Nat) : Nat := ctzAux 64 x

/-- Replicate a C boolean stored in a `target_ulong` and negated
(`-flag`): all-ones when the flag holds, zero otherwise. -/
def boolMask (b : Bool) : Nat := if b then M64 else 0

/-- The arbiter `riscv_cpu_local_irq_pending`.  Returns the updated hart state (the
force-HS-exception flag can be set on the virt path) and the selected
interrupt index, `none` standing for `EXCP_NONE`. -/
def riscv_cpu_local_irq_pending (s : CPURISCVState) :
    CPURISCVState × Option Nat :=
  let mstatus_mie := getf s.mstatus MSTATUS_MIE_SHIFT 1
  let mstatus_sie := getf s.mstatus MSTATUS_SIE_SHIFT 1
  let vsstatus_sie := getf s.vsstatus MSTATUS_SIE_SHIFT 1
  let pending := s.mip &&& s.mie
  let hspending := s.vsip &&& s.vsie
  let mie := decide (s.priv < PRV_M) ||
    (decide (s.priv = PRV_M) && decide (mstatus_mie ≠ 0))
  let sie := decide (s.priv < PRV_S) ||
    (decide (s.priv = PRV_S) && decide (mstatus_sie ≠ 0))
  let vsie := decide (s.priv < PRV_S) ||
    (decide (s.priv = PRV_S) && decide (vsstatus_sie ≠ 0))
  let irqs := (pending &&& (M64 ^^^ s.mideleg) &&& boolMask mie) |||
              (pending &&& s.mideleg &&& boolMask sie)
  if riscv_cpu_virt_enabled s then
    let pending_hs_irq := hspending &&& boolMask vsie
    if pending_hs_irq ≠ 0 then
      (riscv_cpu_set_force_hs_excep s true, some (ctz64 pending_hs_irq))
    else if irqs ≠ 0 then (s, some (ctz64 irqs)) else (s, none)
  else if irqs ≠ 0 then (s, some (ctz64 irqs)) else (s, none)

/-- The update `riscv_cpu_update_mip` on the hart state: replace the masked bits of
the 32-bit `mip` word and return the old value (the cross-thread
notification is an external effect). -/
def riscv_cpu_update_mip (s : CPURISCVState) (mask value : Nat) :
    CPURISCVState × Nat :=
  ({ s with mip := (s.mip &&& (M32 ^^^ mask)) ||| (value &&& mask) }, s.mip)

/-- The swap `riscv_cpu_swap_background_regs` (64-bit build: the swap mask
includes `MSTATUS64_UXL`). -/
def riscv_cpu_swap_background_regs (s : CPURISCVState) : CPURISCVState :=
  let mstatus_mask := mstatusSwapMask
  let sie_mask := sieSwapMask
  let tmp1 := s.vsstatus &&& mstatus_mask
  let vsstatus1 := s.mstatus &&& mstatus_mask
  let mstatus1 := (s.mstatus &&& (M64 ^^^ mstatus_mask)) ||| tmp1
  let tmp2 := s.vsie &&& sie_mask
  let vsie1 := s.mie &&& sie_mask
  let mie1 := (s.mie &&& (M64 ^^^ sie_mask)) ||| tmp2
  let s1 : CPURISCVState :=
    { s with
      mstatus := mstatus1, vsstatus := vsstatus1,
      mie := mie1, vsie := vsie1,
      stvec := s.vstvec, vstvec := s.stvec,
      sscratch := s.vsscratch, vsscratch := s.sscratch,
      sepc := s.vsepc, vsepc := s.sepc,
      scause := s.vscause, vscause := s.scause,
      sbadaddr := s.vstval, vstval := s.sbadaddr,
      satp := s.vsatp, vsatp := s.satp }
  let tmp3 := s1.vsip
  let (s2, old) := riscv_cpu_update_mip s1 (sieSwapMask) tmp3
  let tmp4 := old &&& (sieSwapMask)
  { s2 with vsip := tmp4 }

/-- The mode change `riscv_cpu_set_mode`: store the new privilege (H is coerced to U)
and clear the load reservation (`-1` as a 64-bit word). -/
def riscv_cpu_set_mode (s : CPURISCVState) (newpriv : Nat) : CPURISCVState :=
  let p := if newpriv = PRV_H then PRV_U else newpriv
  { s with priv := p, load_res := M64 }

/-! ## Helper lemmas about the swap and the arbiter -/

theorem mix_land_right (x y a b : Nat) (hab : a &&& b = 0) :
    ((x &&& a) ||| (y &&& b)) &&& b = y &&& b := by
  rw [land_lor_distrib_right, Nat.land_assoc x a b, hab, Nat.and_zero,
    Nat.zero_or, Nat.land_assoc, Nat.and_self]

theorem mix_land_left (x y a b : Nat) (hba : b &&& a = 0) :
    ((x &&& a) ||| (y &&& b)) &&& a = x &&& a := by
  rw [land_lor_distrib_right, Nat.land_assoc y b a, hba, Nat.and_zero,
    Nat.or_zero, Nat.land_assoc, Nat.and_self]

theorem virt_enabled_hasRVH (s : CPURISCVState)
    (h : riscv_cpu_virt_enabled s = true) : s.hasRVH = true := by
  unfold riscv_cpu_virt_enabled at h
  by_cases hrv : s.hasRVH
  · exact hrv
  · simp [hrv] at h

/-- Selecting `none` from the tail of the arbiter is exactly `irqs = 0`. -/
theorem irq_result_none (st : CPURISCVState) (n : Nat) :
    ((if n ≠ 0 then (st, some (ctz64 n)) else (st, none) :
        CPURISCVState × Option Nat).2 = none) ↔ n = 0 := by
  by_cases h : n = 0 <;> simp [h]

/-- An all-fields-zero hart state used as the base of concrete states. -/
def zeroState : CPURISCVState :=
  { priv := 0, pc := 0, mstatus := 0, vsstatus := 0, mie := 0, vsie := 0,
    mip := 0, vsip := 0, mideleg := 0, medeleg := 0, hideleg := 0,
    hedeleg := 0, hstatus := 0, mtvec := 0, stvec := 0, vstvec := 0,
    mepc := 0, sepc := 0, vsepc := 0, mcause := 0, scause := 0,
    vscause := 0, mbadaddr := 0, sbadaddr := 0, vstval := 0,
    mscratch := 0, sscratch := 0, vsscratch := 0, satp := 0, vsatp := 0,
    sptbr := 0, badaddr := 0, virt := 0, load_res := 0, miclaim := 0,
    hasRVH := false, hasMMU := false, hasPMP := false, privVer110 := true }

theorem mstatusMask_compl_disj :
    (M64 ^^^ mstatusSwapMask) &&& mstatusSwapMask = 0 := by decide

theorem sieMask_compl64_disj :
    (M64 ^^^ sieSwapMask) &&& sieSwapMask = 0 := by decide

theorem sieMask_compl32_disj :
    (M32 ^^^ sieSwapMask) &&& sieSwapMask = 0 := by decide

theorem sieMask_disj_compl32 :
    sieSwapMask &&& (M32 ^^^ sieSwapMask) = 0 := by decide

/-- After a swap, the masked `mstatus` bits are the old `vsstatus` bits. -/
theorem swap_mstatus_land (s : CPURISCVState) :
    (riscv_cpu_swap_background_regs s).mstatus &&& mstatusSwapMask =
      s.vsstatus &&& mstatusSwapMask := by
  have h : (riscv_cpu_swap_background_regs s).mstatus =
      (s.mstatus &&& (M64 ^^^ mstatusSwapMask)) |||
        (s.vsstatus &&& mstatusSwapMask) := rfl
  rw [h, mix_land_right _ _ _ _ mstatusMask_compl_disj]

theorem swap_vsstatus (s : CPURISCVState) :
    (riscv_cpu_swap_background_regs s).vsstatus =
      s.mstatus &&& mstatusSwapMask := rfl

/-- After a swap, the S-mode `mie` bits are the old `vsie` bits. -/
theorem swap_mie_land (s : CPURISCVState) :
    (riscv_cpu_swap_background_regs s).mie &&& sieSwapMask =
      s.vsie &&& sieSwapMask := by
  have h : (riscv_cpu_swap_background_regs s).mie =
      (s.mie &&& (M64 ^^^ sieSwapMask)) ||| (s.vsie &&& sieSwapMask) := rfl
  rw [h, mix_land_right _ _ _ _ sieMask_compl64_disj]

theorem swap_vsie (s : CPURISCVState) :
    (riscv_cpu_swap_background_regs s).vsie = s.mie &&& sieSwapMask := rfl

/-- After a swap, the S-mode `mip` bits are the old `vsip` bits. -/
theorem swap_mip_land (s : CPURISCVState) :
    (riscv_cpu_swap_background_regs s).mip &&& sieSwapMask =
      s.vsip &&& sieSwapMask := by
  have h : (riscv_cpu_swap_background_regs s).mip =
      (s.mip &&& (M32 ^^^ sieSwapMask)) ||| (s.vsip &&& sieSwapMask) := rfl
  rw [h, mix_land_right _ _ _ _ sieMask_compl32_disj]

/-- After a swap, the non-S-mode `mip` bits are unchanged. -/
theorem swap_mip_land_compl (s : CPURISCVState) :
    (riscv_cpu_swap_background_regs s).mip &&& (M32 ^^^ sieSwapMask) =
      s.mip &&& (M32 ^^^ sieSwapMask) := by
  have h : (riscv_cpu_swap_background_regs s).mip =
      (s.mip &&& (M32 ^^^ sieSwapMask)) ||| (s.vsip &&& sieSwapMask) := rfl
  rw [h, mix_land_left _ _ _ _ sieMask_disj_compl32]

theorem swap_vsip (s : CPURISCVState) :
    (riscv_cpu_swap_background_regs s).vsip = s.mip &&& sieSwapMask := rfl

/-- With virt off, the arbiter selects `none` exactly when the combined
irq word of the source is zero. -/
theorem local_irq_pending_none_iff (s : CPURISCVState)
    (hv : riscv_cpu_virt_enabled s = false) :
    ((riscv_cpu_local_irq_pending s).2 = none) ↔
      ((s.mip &&& s.mie) &&& (M64 ^^^ s.mideleg) &&&
         boolMask (decide (s.priv < PRV_M) ||
           (decide (s.priv = PRV_M) &&
             decide (getf s.mstatus MSTATUS_MIE_SHIFT 1 ≠ 0))) = 0 ∧
       (s.mip &&& s.mie) &&& s.mideleg &&&
         boolMask (decide (s.priv < PRV_S) ||
           (decide (s.priv = PRV_S) &&
             decide (getf s.mstatus MSTATUS_SIE_SHIFT 1 ≠ 0))) = 0) := by
  unfold riscv_cpu_local_irq_pending
  simp only [hv, Bool.false_eq_true, if_false]
  rw [irq_result_none, lor_eq_zero_iff]

/-- Concrete state refuting claim C1: machine mode with `mstatus.SIE`
set, `mstatus.MIE` clear, and a delegated pending enabled interrupt. -/
def c1State : CPURISCVState :=
  { zeroState with priv := 3, mstatus := 2, mie := 2, mip := 2, mideleg := 2 }

/-- Claim C1 (counterexample): in M-mode with `mstatus.SIE = 1`,
`mstatus.MIE = 0` and a delegated pending enabled interrupt, the arbiter
returns NONE although the claimed right-hand side is nonzero — the code
masks delegated interrupts entirely in M-mode instead of replicating
`mstatus.SIE`. -/
theorem claim_c1_counterexample :
    ¬ (((riscv_cpu_local_irq_pending c1State).2 = none) ↔
      (c1State.mip &&& c1State.mie &&&
         (if c1State.priv < PRV_M then M64
          else if getf c1State.mstatus MSTATUS_MIE_SHIFT 1 ≠ 0 then M64
          else 0) &&& (M64 ^^^ c1State.mideleg) = 0 ∧
       c1State.mip &&& c1State.mie &&&
         (if c1State.priv < PRV_S then M64
          else if getf c1State.mstatus MSTATUS_SIE_SHIFT 1 ≠ 0 then M64
          else 0) &&& c1State.mideleg = 0)) := by
  decide

/-- Claim C1 (amended): with virt off, the arbiter returns NONE iff
`(mip & mie & (priv<M ? ~0 : MIE·~0) & ~mideleg) = 0` and
`(mip & mie & maskS & mideleg) = 0`, where `maskS` is all-ones when
`priv < S`, `mstatus.SIE` replicated when `priv = S`, and zero when
`priv = M` (the code gives delegated interrupts no chance in M-mode). -/
theorem claim_c1_masking (s : CPURISCVState)
    (hv : riscv_cpu_virt_enabled s = false)
    (hp : s.priv = PRV_U ∨ s.priv = PRV_S ∨ s.priv = PRV_M) :
    ((riscv_cpu_local_irq_pending s).2 = none) ↔
      (s.mip &&& s.mie &&&
         (if s.priv < PRV_M then M64
          else if getf s.mstatus MSTATUS_MIE_SHIFT 1 ≠ 0 then M64
          else 0) &&& (M64 ^^^ s.mideleg) = 0 ∧
       s.mip &&& s.mie &&&
         (if s.priv < PRV_S then M64
          else if s.priv = PRV_S then
            (if getf s.mstatus MSTATUS_SIE_SHIFT 1 ≠ 0 then M64 else 0)
          else 0) &&& s.mideleg = 0) := by
  have hM : boolMask (decide (s.priv < PRV_M) ||
      (decide (s.priv = PRV_M) &&
        decide (getf s.mstatus MSTATUS_MIE_SHIFT 1 ≠ 0))) =
      (if s.priv < PRV_M then M64
       else if getf s.mstatus MSTATUS_MIE_SHIFT 1 ≠ 0 then M64 else 0) := by
    rcases hp with hp | hp | hp <;>
      simp [hp, boolMask, PRV_U, PRV_S, PRV_M]
  have hS : boolMask (decide (s.priv < PRV_S) ||
      (decide (s.priv = PRV_S) &&
        decide (getf s.mstatus MSTATUS_SIE_SHIFT 1 ≠ 0))) =
      (if s.priv < PRV_S then M64
       else if s.priv = PRV_S then
         (if getf s.mstatus MSTATUS_SIE_SHIFT 1 ≠ 0 then M64 else 0)
       else 0) := by
    rcases hp with hp | hp | hp <;>
      simp [hp, boolMask, PRV_U, PRV_S, PRV_M]
  rw [local_irq_pending_none_iff s hv, hM, hS,
    land_right_comm (s.mip &&& s.mie) (M64 ^^^ s.mideleg),
    land_right_comm (s.mip &&& s.mie) s.mideleg]

/-- Witness for the amended claim C1 at a concrete state. -/
theorem claim_c1_masking_witness :
    (riscv_cpu_virt_enabled zeroState = false ∧
      (zeroState.priv = PRV_U ∨ zeroState.priv = PRV_S ∨
        zeroState.priv = PRV_M)) ∧
    (((riscv_cpu_local_irq_pending zeroState).2 = none) ↔
      (zeroState.mip &&& zeroState.mie &&&
         (if zeroState.priv < PRV_M then M64
          else if getf zeroState.mstatus MSTATUS_MIE_SHIFT 1 ≠ 0 then M64
          else 0) &&& (M64 ^^^ zeroState.mideleg) = 0 ∧
       zeroState.mip &&& zeroState.mie &&&
         (if zeroState.priv < PRV_S then M64
          else if zeroState.priv = PRV_S then
            (if getf zeroState.mstatus MSTATUS_SIE_SHIFT 1 ≠ 0 then M64
             else 0)
          else 0) &&& zeroState.mideleg = 0)) :=
  ⟨⟨by decide, Or.inl rfl⟩,
    claim_c1_masking zeroState (by decide) (Or.inl rfl)⟩

/-- The CSR bits the background swap involves are restored by a second
swap, except that `vsip` keeps only its S-mode bits; that remasking is
idempotent under two further swaps. -/
def swapRoundTripRestored (s : CPURISCVState) : Prop :=
  (riscv_cpu_swap_background_regs (riscv_cpu_swap_background_regs s)).mstatus
      &&& mstatusSwapMask = s.mstatus &&& mstatusSwapMask ∧
  (riscv_cpu_swap_background_regs (riscv_cpu_swap_background_regs s)).vsstatus
      &&& mstatusSwapMask = s.vsstatus &&& mstatusSwapMask ∧
  (riscv_cpu_swap_background_regs (riscv_cpu_swap_background_regs s)).mie
      &&& sieSwapMask = s.mie &&& sieSwapMask ∧
  (riscv_cpu_swap_background_regs (riscv_cpu_swap_background_regs s)).vsie
      &&& sieSwapMask = s.vsie &&& sieSwapMask ∧
  (riscv_cpu_swap_background_regs (riscv_cpu_swap_background_regs s)).stvec
      = s.stvec ∧
  (riscv_cpu_swap_background_regs (riscv_cpu_swap_background_regs s)).vstvec
      = s.vstvec ∧
  (riscv_cpu_swap_background_regs (riscv_cpu_swap_background_regs s)).sscratch
      = s.sscratch ∧
  (riscv_cpu_swap_background_regs (riscv_cpu_swap_background_regs s)).vsscratch
      = s.vsscratch ∧
  (riscv_cpu_swap_background_regs (riscv_cpu_swap_background_regs s)).sepc
      = s.sepc ∧
  (riscv_cpu_swap_background_regs (riscv_cpu_swap_background_regs s)).vsepc
      = s.vsepc ∧
  (riscv_cpu_swap_background_regs (riscv_cpu_swap_background_regs s)).scause
      = s.scause ∧
  (riscv_cpu_swap_background_regs (riscv_cpu_swap_background_regs s)).vscause
      = s.vscause ∧
  (riscv_cpu_swap_background_regs (riscv_cpu_swap_background_regs s)).sbadaddr
      = s.sbadaddr ∧
  (riscv_cpu_swap_background_regs (riscv_cpu_swap_background_regs s)).vstval
      = s.vstval ∧
  (riscv_cpu_swap_background_regs (riscv_cpu_swap_background_regs s)).satp
      = s.satp ∧
  (riscv_cpu_swap_background_regs (riscv_cpu_swap_background_regs s)).vsatp
      = s.vsatp ∧
  (riscv_cpu_swap_background_regs (riscv_cpu_swap_background_regs s)).mip
      &&& sieSwapMask = s.mip &&& sieSwapMask ∧
  (riscv_cpu_swap_background_regs (riscv_cpu_swap_background_regs s)).vsip
      &&& sieSwapMask = s.vsip &&& sieSwapMask ∧
  (riscv_cpu_swap_background_regs (riscv_cpu_swap_background_regs s)).vsip
      = s.vsip &&& sieSwapMask ∧
  (riscv_cpu_swap_background_regs (riscv_cpu_swap_background_regs
      (riscv_cpu_swap_background_regs (riscv_cpu_swap_background_regs s)))).vsip
      = (riscv_cpu_swap_background_regs
          (riscv_cpu_swap_background_regs s)).vsip

/-- Claim C5: with the H-extension present, applying
`riscv_cpu_swap_background_regs` twice restores every involved CSR bit,
modulo the remasking of `vsip` to the S-mode bits, which is idempotent
after the first application. -/
theorem claim_c5_swap_round_trip (s : CPURISCVState)
    (h : s.hasRVH = true) : swapRoundTripRestored s := by
  unfold swapRoundTripRestored
  refine ⟨?_, ?_, ?_, ?_, rfl, rfl, rfl, rfl, rfl, rfl, rfl, rfl, rfl,
    rfl, rfl, rfl, ?_, ?_, ?_, ?_⟩
  · rw [swap_mstatus_land (riscv_cpu_swap_background_regs s),
      swap_vsstatus s, Nat.land_assoc, Nat.and_self]
  · rw [swap_vsstatus (riscv_cpu_swap_background_regs s), Nat.land_assoc,
      Nat.and_self, swap_mstatus_land s]
  · rw [swap_mie_land (riscv_cpu_swap_background_regs s), swap_vsie s,
      Nat.land_assoc, Nat.and_self]
  · rw [swap_vsie (riscv_cpu_swap_background_regs s), Nat.land_assoc,
      Nat.and_self, swap_mie_land s]
  · rw [swap_mip_land (riscv_cpu_swap_background_regs s), swap_vsip s,
      Nat.land_assoc, Nat.and_self]
  · rw [swap_vsip (riscv_cpu_swap_background_regs s), Nat.land_assoc,
      Nat.and_self, swap_mip_land s]
  · rw [swap_vsip (riscv_cpu_swap_background_regs s), swap_mip_land s]
  · rw [swap_vsip (riscv_cpu_swap_background_regs
        (riscv_cpu_swap_background_regs (riscv_cpu_swap_background_regs s))),
      swap_mip_land (riscv_cpu_swap_background_regs
        (riscv_cpu_swap_background_regs s)),
      swap_vsip (riscv_cpu_swap_background_regs s), Nat.land_assoc,
      Nat.and_self]

/-- Witness for claim C5 at a concrete state with the H-extension. -/
theorem claim_c5_swap_round_trip_witness :
    ({ zeroState with hasRVH := true }.hasRVH = true) ∧
      swapRoundTripRestored { zeroState with hasRVH := true } :=
  ⟨rfl, claim_c5_swap_round_trip { zeroState with hasRVH := true } rfl⟩

/-- Claim C9: the swap exchanges the S-mode pending bits of `mip` and
`vsip` — after the call the S-mode bits of `mip` are the old `vsip`
bits, the other `mip` bits are unchanged, and `vsip` is the old `mip`
restricted to the S-mode bits. -/
theorem claim_c9_swap_mip_exchange (s : CPURISCVState)
    (h : s.hasRVH = true) :
    (riscv_cpu_swap_background_regs s).mip &&& sieSwapMask =
        s.vsip &&& sieSwapMask ∧
    (riscv_cpu_swap_background_regs s).mip &&& (M32 ^^^ sieSwapMask) =
        s.mip &&& (M32 ^^^ sieSwapMask) ∧
    (riscv_cpu_swap_background_regs s).vsip = s.mip &&& sieSwapMask :=
  ⟨swap_mip_land s, swap_mip_land_compl s, swap_vsip s⟩

/-- Witness for claim C9 at a concrete state with the H-extension. -/
theorem claim_c9_swap_mip_exchange_witness :
    ({ zeroState with hasRVH := true, mip := 0x22, vsip := 0x200
        }.hasRVH = true) ∧
    ((riscv_cpu_swap_background_regs
        { zeroState with hasRVH := true, mip := 0x22, vsip := 0x200
          }).mip &&& sieSwapMask =
      { zeroState with hasRVH := true, mip := 0x22, vsip := 0x200
        }.vsip &&& sieSwapMask ∧
     (riscv_cpu_swap_background_regs
        { zeroState with hasRVH := true, mip := 0x22, vsip := 0x200
          }).mip &&& (M32 ^^^ sieSwapMask) =
      { zeroState with hasRVH := true, mip := 0x22, vsip := 0x200
        }.mip &&& (M32 ^^^ sieSwapMask) ∧
     (riscv_cpu_swap_background_regs
        { zeroState with hasRVH := true, mip := 0x22, vsip := 0x200
          }).vsip =
      { zeroState with hasRVH := true, mip := 0x22, vsip := 0x200
        }.mip &&& sieSwapMask) :=
  ⟨rfl, claim_c9_swap_mip_exchange
    { zeroState with hasRVH := true, mip := 0x22, vsip := 0x200 } rfl⟩

/-- Concrete state refuting claim C7: virt on with a pending enabled
HS-level interrupt. -/
def c7State : CPURISCVState :=
  { zeroState with hasRVH := true, virt := 1, vsip := 2, vsie := 2 }

/-- Claim C7 (counterexample): the arbiter is not state-preserving — at
`c7State` (virt on, `vsip & vsie ≠ 0`) it sets the force-HS-exception
flag in the `virt` word, so the post-state differs from the pre-state. -/
theorem claim_c7_counterexample :
    (riscv_cpu_local_irq_pending c7State).1 ≠ c7State := by
  decide

/-- Claim C7 (amended): the arbiter leaves the hart state unchanged
except that it may set the force-HS-exception flag of the `virt` word
(which happens exactly on the virt path with a pending enabled HS
interrupt); every other field is untouched, and the returned index is a
function of the pre-state only. -/
theorem claim_c7_frame (s : CPURISCVState) :
    (riscv_cpu_local_irq_pending s).1 = s ∨
    (riscv_cpu_local_irq_pending s).1 =
      { s with virt := setf s.virt FORCE_HS_EXCEP_SHIFT 1 1 } := by
  simp only [riscv_cpu_local_irq_pending]
  split
  · rename_i hv
    have hrv := virt_enabled_hasRVH s hv
    split
    · right
      simp [riscv_cpu_set_force_hs_excep, hrv]
    · split
      · left; rfl
      · left; rfl
  · split
    · left; rfl
    · left; rfl

/-- The source's `mcause` expression for trap entry:
`cause | ~(((target_ulong)-1) >> async)` (64-bit build). -/
def mcauseSrcExpr (cause async : Nat) : Nat :=
  cause ||| (M64 ^^^ (M64 >>> async))

/-- Modelled from the spec: the reference expression
`cause | (async << (XLEN-1))` with `XLEN = 64`. -/
def mcauseRefExpr (cause async : Nat) : Nat :=
  cause ||| (async <<< 63)

/-- Claim C8: for `async ∈ {0,1}` the source's `mcause` expression
coincides with the reference `cause | (async << 63)`: it is `cause` when
`async = 0` and sets exactly the top bit in addition when `async = 1`. -/
theorem claim_c8_mcause_equiv (cause async : Nat) (h : async ≤ 1) :
    mcauseSrcExpr cause async = mcauseRefExpr cause async ∧
    (async = 0 → mcauseSrcExpr cause async = cause) ∧
    (async = 1 → mcauseSrcExpr cause async = cause ||| (1 <<< 63)) := by
  unfold mcauseSrcExpr mcauseRefExpr
  interval_cases async
  · have e1 : M64 ^^^ (M64 >>> 0) = 0 := by decide
    simp [e1]
  · have e1 : M64 ^^^ (M64 >>> 1) = 1 <<< 63 := by decide
    simp [e1]

/-- Witness for claim C8 at `cause = 5`, `async = 1`. -/
theorem claim_c8_mcause_equiv_witness :
    ((1 : Nat) ≤ 1) ∧
    (mcauseSrcExpr 5 1 = mcauseRefExpr 5 1 ∧
     ((1 : Nat) = 0 → mcauseSrcExpr 5 1 = 5) ∧
     ((1 : Nat) = 1 → mcauseSrcExpr 5 1 = 5 ||| (1 <<< 63))) :=
  ⟨by decide, claim_c8_mcause_equiv 5 1 (by decide)⟩

/-- A value below `2^n` is fixed by masking with `2^n - 1`. -/
theorem land_low (c n : Nat) (h : c < 2 ^ n) : c &&& (2 ^ n - 1) = c := by
  apply Nat.eq_of_testBit_eq
  intro i
  rw [Nat.testBit_land, Nat.testBit_two_pow_sub_one]
  by_cases hi : i < n
  · simp [hi]
  · have : c.testBit i = false := by
      apply Nat.testBit_eq_false_of_lt
      calc c < 2 ^ n := h
        _ ≤ 2 ^ i := Nat.pow_le_pow_right (by norm_num) (by omega)
    simp [this]

/-- A synchronous cause below `2^31` has no interrupt flag. -/
theorem land_flag_eq_zero (c : Nat) (h : c < 2 ^ 31) :
    c &&& RISCV_EXCP_INT_FLAG = 0 := by
  have hf : RISCV_EXCP_INT_FLAG = 2 ^ 31 := by norm_num [RISCV_EXCP_INT_FLAG]
  rw [hf]
  apply Nat.eq_of_testBit_eq
  intro i
  rw [Nat.testBit_land, Nat.testBit_two_pow, Nat.zero_testBit]
  by_cases hi : 31 = i
  · subst hi
    rw [Nat.testBit_eq_false_of_lt h]
    rfl
  · simp [hi]

/-- A synchronous cause below `2^31` is fixed by the interrupt mask. -/
theorem land_int_mask (c : Nat) (h : c < 2 ^ 31) :
    c &&& RISCV_EXCP_INT_MASK = c := by
  have hm : RISCV_EXCP_INT_MASK = 2 ^ 31 - 1 := by norm_num [RISCV_EXCP_INT_MASK]
  rw [hm]
  exact land_low c 31 h

/-! ## Page-table walker (`get_physical_address`) -/

/-- MMU access kind (`MMU_INST_FETCH` / `MMU_DATA_LOAD` /
`MMU_DATA_STORE`). -/
inductive AccessType where
  | fetch
  | load
  | store
  deriving DecidableEq, Repr

/-- Result of a translation: `TRANSLATE_SUCCESS` with the physical
address and protection bits, `TRANSLATE_FAIL`, or `TRANSLATE_PMP_FAIL`. -/
inductive TResult where
  | success (physical prot : Nat)
  | fail
  | pmpFail
  deriving DecidableEq, Repr

/-- The walk loop of `get_physical_address`, by recursion on the number
of remaining levels (`n` remaining means the source's loop counter is at
`i = levels - n`, so `ptshift = (n - 1) * ptidxbits`).  Returns the
translation result together with the number of loop iterations entered.
The memory is a fixed map, so the A/D compare-and-swap of the source
always succeeds and `restart` is never taken; a non-RAM PTE needing an
A/D update fails as in the source. -/
def ptw (mem : Nat → Nat) (isRam : Nat → Bool) (pmpFeat : Bool)
    (pmpOk : Nat → Bool) (sum mxr mode : Nat) (acc : AccessType)
    (ptidxbits ptesize addr : Nat) : Nat → Nat → TResult × Nat
  | _, 0 => (.fail, 0)
  | base, n + 1 =>
    let ptshift := n * ptidxbits
    let idx := (addr >>> (PGSHIFT + ptshift)) &&& ((1 <<< ptidxbits) - 1)
    let pte_addr := base + idx * ptesize
    if pmpFeat && !(pmpOk pte_addr) then (.pmpFail, 1)
    else
      let pte := mem pte_addr
      let ppn := pte >>> PTE_PPN_SHIFT
      if pte &&& PTE_V = 0 then (.fail, 1)
      else if pte &&& (PTE_R ||| PTE_W ||| PTE_X) = 0 then
        let r := ptw mem isRam pmpFeat pmpOk sum mxr mode acc ptidxbits
          ptesize addr (ppn <<< PGSHIFT) n
        (r.1, r.2 + 1)
      else if pte &&& (PTE_R ||| PTE_W ||| PTE_X) = PTE_W then (.fail, 1)
      else if pte &&& (PTE_R ||| PTE_W ||| PTE_X) = (PTE_W ||| PTE_X) then
        (.fail, 1)
      else if pte &&& PTE_U ≠ 0 ∧
          (mode ≠ PRV_U ∧ (sum = 0 ∨ acc = .fetch)) then (.fail, 1)
      else if pte &&& PTE_U = 0 ∧ mode ≠ PRV_S then (.fail, 1)
      else if ppn &&& ((1 <<< ptshift) - 1) ≠ 0 then (.fail, 1)
      else if acc = .load ∧
          ¬ (pte &&& PTE_R ≠ 0 ∨ (pte &&& PTE_X ≠ 0 ∧ mxr ≠ 0)) then
        (.fail, 1)
      else if acc = .store ∧ pte &&& PTE_W = 0 then (.fail, 1)
      else if acc = .fetch ∧ pte &&& PTE_X = 0 then (.fail, 1)
      else
        let updated := pte ||| PTE_A ||| (if acc = .store then PTE_D else 0)
        if updated ≠ pte ∧ isRam pte_addr = false then (.fail, 1)
        else
          let vpn := addr >>> PGSHIFT
          let physical := (ppn ||| (vpn &&& ((1 <<< ptshift) - 1))) <<< PGSHIFT
          let prot :=
            (if pte &&& PTE_R ≠ 0 ∨ (pte &&& PTE_X ≠ 0 ∧ mxr ≠ 0)
             then PAGE_READ else 0) |||
            (if pte &&& PTE_X ≠ 0 then PAGE_EXEC else 0) |||
            (if pte &&& PTE_W ≠ 0 ∧ acc = .store then PAGE_WRITE else 0)
          (.success physical prot, 1)

/-- Table `(levels, ptidxbits, ptesize)` for the privileged-1.10 `satp.MODE`
values; `none` for the `g_assert_not_reached` arms. -/
def vmParams110 : Nat → Option (Nat × Nat × Nat)
  | 1 => some (2, 10, 4)
  | 8 => some (3, 9, 8)
  | 9 => some (4, 9, 8)
  | 10 => some (5, 9, 8)
  | _ => none

/-- Table `(levels, ptidxbits, ptesize)` for the legacy `mstatus.VM` values. -/
def vmParamsLegacy : Nat → Option (Nat × Nat × Nat)
  | 8 => some (2, 10, 4)
  | 9 => some (3, 9, 8)
  | 10 => some (4, 9, 8)
  | _ => none

/-- The effective privilege of a translation: `mmu_idx`, except that a
data access from M-mode with `mstatus.MPRV` set uses `mstatus.MPP`. -/
def effMode (s : CPURISCVState) (acc : AccessType) (mmu_idx : Nat) : Nat :=
  if mmu_idx = PRV_M ∧ acc ≠ .fetch ∧
      getf s.mstatus MSTATUS_MPRV_SHIFT 1 = 1
  then getf s.mstatus MSTATUS_MPP_SHIFT 2
  else mmu_idx

/-- The walker `get_physical_address`.  `mem` is the guest-physical PTE load,
`isRam` tells whether a PTE address is backed by RAM, `pmpOk` is the
external `pmp_hart_has_privs` oracle for PTE loads.  Returns `none` for
the `g_assert_not_reached` arms (undefined translation modes), otherwise
the result and the number of walk iterations. -/
def get_physical_address (s : CPURISCVState) (mem : Nat → Nat)
    (isRam : Nat → Bool) (pmpOk : Nat → Bool) (addr : Nat)
    (acc : AccessType) (mmu_idx : Nat) : Option (TResult × Nat) :=
  let mode := effMode s acc mmu_idx
  if mode = PRV_M ∨ s.hasMMU = false then
    some (.success addr (PAGE_READ ||| PAGE_WRITE ||| PAGE_EXEC), 0)
  else
    let mxr := getf s.mstatus MSTATUS_MXR_SHIFT 1
    let base := if s.privVer110
      then (getf s.satp 0 SATP_PPN_WIDTH) <<< PGSHIFT
      else s.sptbr <<< PGSHIFT
    let sum := if s.privVer110
      then getf s.mstatus MSTATUS_SUM_SHIFT 1
      else 1 - getf s.mstatus MSTATUS_SUM_SHIFT 1
    let vm := if s.privVer110
      then getf s.satp SATP_MODE_SHIFT 4
      else getf s.mstatus MSTATUS_VM_SHIFT 5
    if vm = 0 then
      some (.success addr (PAGE_READ ||| PAGE_WRITE ||| PAGE_EXEC), 0)
    else
      match (if s.privVer110 then vmParams110 vm else vmParamsLegacy vm) with
      | none => none
      | some (levels, ptidxbits, ptesize) =>
        let va_bits := PGSHIFT + levels * ptidxbits
        let mask := (1 <<< (64 - (va_bits - 1))) - 1
        let masked_msbs := (addr >>> (va_bits - 1)) &&& mask
        if masked_msbs ≠ 0 ∧ masked_msbs ≠ mask then some (.fail, 0)
        else some (ptw mem isRam s.hasPMP pmpOk sum mxr mode acc ptidxbits
          ptesize addr base levels)

/-- Claim C4: when the effective mode is M (`priv = M` as `mmu_idx` with
`mstatus.MPRV = 0`), or the MMU feature is absent, or the active
translation mode (`satp.MODE`, legacy `mstatus.VM`) is Bare, the walker
returns identity translation with R|W|X protection. -/
theorem claim_c4_bare_identity (s : CPURISCVState) (mem : Nat → Nat)
    (isRam : Nat → Bool) (pmpOk : Nat → Bool) (addr : Nat)
    (acc : AccessType) (mmu_idx : Nat)
    (h : (mmu_idx = PRV_M ∧ getf s.mstatus MSTATUS_MPRV_SHIFT 1 = 0) ∨
         s.hasMMU = false ∨
         (if s.privVer110 then getf s.satp SATP_MODE_SHIFT 4
          else getf s.mstatus MSTATUS_VM_SHIFT 5) = 0) :
    get_physical_address s mem isRam pmpOk addr acc mmu_idx =
      some (.success addr (PAGE_READ ||| PAGE_WRITE ||| PAGE_EXEC), 0) := by
  rcases h with ⟨hm, hmprv⟩ | hmmu | hbare
  · have hmode : effMode s acc mmu_idx = PRV_M := by
      unfold effMode
      rw [if_neg]
      · exact hm
      · rintro ⟨-, -, h1⟩
        rw [hmprv] at h1
        exact absurd h1 (by norm_num)
    unfold get_physical_address
    rw [if_pos (Or.inl hmode)]
  · unfold get_physical_address
    rw [if_pos (Or.inr hmmu)]
  · unfold get_physical_address
    by_cases hmode : effMode s acc mmu_idx = PRV_M ∨ s.hasMMU = false
    · rw [if_pos hmode]
    · rw [if_neg hmode]
      simp [hbare]

/-- Witness for claim C4: M-mode data access with `MPRV = 0`. -/
theorem claim_c4_bare_identity_witness :
    ((PRV_M = PRV_M ∧
        getf { zeroState with hasMMU := true }.mstatus
          MSTATUS_MPRV_SHIFT 1 = 0) ∨
      { zeroState with hasMMU := true }.hasMMU = false ∨
      (if { zeroState with hasMMU := true }.privVer110
       then getf { zeroState with hasMMU := true }.satp SATP_MODE_SHIFT 4
       else getf { zeroState with hasMMU := true }.mstatus
         MSTATUS_VM_SHIFT 5) = 0) ∧
    get_physical_address { zeroState with hasMMU := true }
        (fun _ => 0) (fun _ => true) (fun _ => true) 0x12345 .load PRV_M =
      some (.success 0x12345 (PAGE_READ ||| PAGE_WRITE ||| PAGE_EXEC), 0) :=
  ⟨Or.inl ⟨rfl, by decide⟩,
    claim_c4_bare_identity { zeroState with hasMMU := true }
      (fun _ => 0) (fun _ => true) (fun _ => true) 0x12345 .load PRV_M
      (Or.inl ⟨rfl, by decide⟩)⟩

/-- If some bit at or above `vb` differs from bit `vb - 1`, the source's
canonical-address check rejects: the masked high bits are neither all
zero nor all one. -/
theorem canonical_reject (addr vb : Nat) (h1 : 0 < vb) (h2 : vb ≤ 64)
    (hex : ∃ i, i < 64 ∧ vb ≤ i ∧
      addr.testBit i ≠ addr.testBit (vb - 1)) :
    ((addr >>> (vb - 1)) &&& ((1 <<< (64 - (vb - 1))) - 1)) ≠ 0 ∧
    ((addr >>> (vb - 1)) &&& ((1 <<< (64 - (vb - 1))) - 1)) ≠
      (1 <<< (64 - (vb - 1))) - 1 := by
  obtain ⟨i, hi64, hvbi, hne⟩ := hex
  have hmask : (1 <<< (64 - (vb - 1))) - 1 = 2 ^ (64 - (vb - 1)) - 1 := by
    rw [Nat.one_shiftLeft]
  constructor
  · intro h0
    have t1 := congrArg (fun x => Nat.testBit x (i - (vb - 1))) h0
    have t2 := congrArg (fun x => Nat.testBit x 0) h0
    simp only [hmask, Nat.testBit_land, Nat.testBit_shiftRight,
      Nat.testBit_two_pow_sub_one, Nat.zero_testBit,
      Bool.and_eq_false_iff] at t1 t2
    have e1 : vb - 1 + (i - (vb - 1)) = i := by omega
    have e2 : (i - (vb - 1)) < 64 - (vb - 1) := by omega
    have e3 : 0 < 64 - (vb - 1) := by omega
    rw [e1] at t1
    have hbi : addr.testBit i = false := by
      rcases t1 with t1 | t1
      · exact t1
      · simp [e2] at t1
    have hbv : addr.testBit (vb - 1) = false := by
      rcases t2 with t2 | t2
      · simpa using t2
      · simp [e3] at t2
    exact hne (by rw [hbi, hbv])
  · intro hm
    have t1 := congrArg (fun x => Nat.testBit x (i - (vb - 1))) hm
    have t2 := congrArg (fun x => Nat.testBit x 0) hm
    simp only [hmask, Nat.testBit_land, Nat.testBit_shiftRight,
      Nat.testBit_two_pow_sub_one] at t1 t2
    have e1 : vb - 1 + (i - (vb - 1)) = i := by omega
    have e2 : (i - (vb - 1)) < 64 - (vb - 1) := by omega
    have e3 : 0 < 64 - (vb - 1) := by omega
    rw [e1] at t1
    simp [e2] at t1
    simp [e3] at t2
    exact hne (by rw [t1, t2])

/-- The defined translation modes give `32 ≤ va_bits ≤ 64`. -/
theorem vmParams110_bounds (v l p z : Nat)
    (h : vmParams110 v = some (l, p, z)) :
    32 ≤ PGSHIFT + l * p ∧ PGSHIFT + l * p ≤ 64 := by
  unfold vmParams110 at h
  split at h <;> cases h <;> decide

theorem vmParamsLegacy_bounds (v l p z : Nat)
    (h : vmParamsLegacy v = some (l, p, z)) :
    32 ≤ PGSHIFT + l * p ∧ PGSHIFT + l * p ≤ 64 := by
  unfold vmParamsLegacy at h
  split at h <;> cases h <;> decide

theorem vmParams110_nonzero (v l p z : Nat)
    (h : vmParams110 v = some (l, p, z)) : v ≠ 0 := by
  intro h0
  rw [h0] at h
  simp [vmParams110] at h

theorem vmParamsLegacy_nonzero (v l p z : Nat)
    (h : vmParamsLegacy v = some (l, p, z)) : v ≠ 0 := by
  intro h0
  rw [h0] at h
  simp [vmParamsLegacy] at h

/-- Claim C3 (amended): with the MMU feature present, for a virtual
address whose bits above `va_bits - 1` are not all equal to bit
`va_bits - 1`, an effective mode below M and a defined non-Bare
translation mode, `get_physical_address` fails before entering the walk. -/
theorem claim_c3_canonical_reject (s : CPURISCVState) (mem : Nat → Nat)
    (isRam : Nat → Bool) (pmpOk : Nat → Bool) (addr : Nat)
    (acc : AccessType) (mmu_idx levels ptidxbits ptesize : Nat)
    (hmode : effMode s acc mmu_idx ≠ PRV_M)
    (hmmu : s.hasMMU = true)
    (hvm : (if s.privVer110 then
        vmParams110 (getf s.satp SATP_MODE_SHIFT 4)
      else vmParamsLegacy (getf s.mstatus MSTATUS_VM_SHIFT 5)) =
      some (levels, ptidxbits, ptesize))
    (hnc : ∃ i, i < 64 ∧ PGSHIFT + levels * ptidxbits ≤ i ∧
      addr.testBit i ≠ addr.testBit (PGSHIFT + levels * ptidxbits - 1)) :
    get_physical_address s mem isRam pmpOk addr acc mmu_idx =
      some (.fail, 0) := by
  have hbounds : 32 ≤ PGSHIFT + levels * ptidxbits ∧
      PGSHIFT + levels * ptidxbits ≤ 64 := by
    by_cases hpv : s.privVer110 = true
    · rw [if_pos hpv] at hvm
      exact vmParams110_bounds _ _ _ _ hvm
    · rw [if_neg hpv] at hvm
      exact vmParamsLegacy_bounds _ _ _ _ hvm
  have hrej := canonical_reject addr (PGSHIFT + levels * ptidxbits)
    (by omega) hbounds.2 hnc
  unfold get_physical_address
  rw [if_neg (by
    rintro (h | h)
    · exact hmode h
    · rw [hmmu] at h
      cases h)]
  by_cases hpv : s.privVer110 = true
  · rw [if_pos hpv] at hvm
    have hvnz := vmParams110_nonzero _ _ _ _ hvm
    simp only [hpv, if_true, if_neg hvnz, hvm]
    rw [if_pos hrej]
  · have hpv' : s.privVer110 = false := by
      revert hpv
      cases s.privVer110 <;> simp
    rw [if_neg hpv] at hvm
    have hvnz := vmParamsLegacy_nonzero _ _ _ _ hvm
    simp only [hpv', if_false, Bool.false_eq_true, if_neg hvnz, hvm]
    rw [if_pos hrej]

/-- State refuting claim C3 as stated: the MMU feature is absent while
`satp.MODE` still reads Sv39. -/
def c3State : CPURISCVState := { zeroState with satp := 8 <<< 60 }

/-- Claim C3 (counterexample): with the MMU feature absent but
`satp.MODE = Sv39` and a non-canonical address (`bit 63 ≠ bit 38`) at
effective mode U, `get_physical_address` succeeds with the identity
mapping instead of failing — the claim omits the MMU-feature condition. -/
theorem claim_c3_counterexample :
    effMode c3State .load PRV_U ≠ PRV_M ∧
    vmParams110 (getf c3State.satp SATP_MODE_SHIFT 4) = some (3, 9, 8) ∧
    ((1 <<< 63 : Nat).testBit 63 ≠ (1 <<< 63 : Nat).testBit 38) ∧
    get_physical_address c3State (fun _ => 0) (fun _ => true)
        (fun _ => true) (1 <<< 63) .load PRV_U =
      some (.success (1 <<< 63) (PAGE_READ ||| PAGE_WRITE ||| PAGE_EXEC),
        0) := by
  decide

/-- Concrete Sv39 state for the witness of the amended claim C3. -/
def c3WitState : CPURISCVState :=
  { zeroState with hasMMU := true, satp := 8 <<< 60 }

/-- Witness for the amended claim C3 at a concrete Sv39 state. -/
theorem claim_c3_canonical_reject_witness :
    (effMode c3WitState .load PRV_U ≠ PRV_M ∧
      c3WitState.hasMMU = true ∧
      (if c3WitState.privVer110 then
          vmParams110 (getf c3WitState.satp SATP_MODE_SHIFT 4)
        else vmParamsLegacy (getf c3WitState.mstatus MSTATUS_VM_SHIFT 5)) =
        some (3, 9, 8)) ∧
    get_physical_address c3WitState
        (fun _ => 0) (fun _ => true) (fun _ => true) (1 <<< 63) .load PRV_U =
      some (.fail, 0) :=
  ⟨⟨by decide, rfl, by decide⟩,
    claim_c3_canonical_reject c3WitState
      (fun _ => 0) (fun _ => true) (fun _ => true) (1 <<< 63) .load PRV_U
      3 9 8 (by decide) rfl (by decide)
      ⟨63, by decide, by decide, by decide⟩⟩

/-- The walk's load chain consists of interior nodes: at each remaining
level the PTE is PMP-accessible, valid, and has `R = W = X = 0`, and the
chain continues at the base it points to. -/
def interiorChain (mem : Nat → Nat) (pmpFeat : Bool) (pmpOk : Nat → Bool)
    (ptidxbits ptesize addr : Nat) : Nat → Nat → Bool
  | _, 0 => true
  | base, n + 1 =>
    let ptshift := n * ptidxbits
    let idx := (addr >>> (PGSHIFT + ptshift)) &&& ((1 <<< ptidxbits) - 1)
    let pte_addr := base + idx * ptesize
    let pte := mem pte_addr
    (!(pmpFeat && !(pmpOk pte_addr))) &&
      decide (pte &&& PTE_V ≠ 0) &&
      decide (pte &&& (PTE_R ||| PTE_W ||| PTE_X) = 0) &&
      interiorChain mem pmpFeat pmpOk ptidxbits ptesize addr
        ((pte >>> PTE_PPN_SHIFT) <<< PGSHIFT) n

/-- A walk whose loaded PTEs are all interior nodes runs through every
remaining level and fails, never following a pointer beyond the deepest
level. -/
theorem ptw_all_interior (mem : Nat → Nat) (isRam : Nat → Bool)
    (pmpFeat : Bool) (pmpOk : Nat → Bool) (sum mxr mode : Nat)
    (acc : AccessType) (ptidxbits ptesize addr : Nat) (n : Nat) :
    ∀ base, interiorChain mem pmpFeat pmpOk ptidxbits ptesize addr
        base n = true →
      ptw mem isRam pmpFeat pmpOk sum mxr mode acc ptidxbits ptesize addr
        base n = (.fail, n) := by
  induction n with
  | zero => intro base _; rfl
  | succ n ih =>
    intro base h
    rw [interiorChain] at h
    simp only [Bool.and_eq_true, Bool.not_eq_true', decide_eq_true_eq] at h
    obtain ⟨⟨⟨hp, hV⟩, hRWX⟩, hrec⟩ := h
    rw [ptw]
    rw [if_neg (by simp [hp]), if_neg (by simp [hV]), if_pos hRWX,
      ih _ hrec]

/-- Claim C10: a walk in which the PTE loaded at every configured level
is a valid interior node (`V = 1`, `R = W = X = 0`) returns Fail after
exactly `levels` iterations — the walk never follows an interior pointer
beyond the deepest level. -/
theorem claim_c10_interior_walk (s : CPURISCVState) (mem : Nat → Nat)
    (isRam : Nat → Bool) (pmpOk : Nat → Bool) (addr : Nat)
    (acc : AccessType) (mmu_idx levels ptidxbits ptesize : Nat)
    (hmode : effMode s acc mmu_idx ≠ PRV_M)
    (hmmu : s.hasMMU = true)
    (hvm : (if s.privVer110 then
        vmParams110 (getf s.satp SATP_MODE_SHIFT 4)
      else vmParamsLegacy (getf s.mstatus MSTATUS_VM_SHIFT 5)) =
      some (levels, ptidxbits, ptesize))
    (hcanon : ¬ ((addr >>> (PGSHIFT + levels * ptidxbits - 1)) &&&
        ((1 <<< (64 - (PGSHIFT + levels * ptidxbits - 1))) - 1) ≠ 0 ∧
      (addr >>> (PGSHIFT + levels * ptidxbits - 1)) &&&
        ((1 <<< (64 - (PGSHIFT + levels * ptidxbits - 1))) - 1) ≠
        (1 <<< (64 - (PGSHIFT + levels * ptidxbits - 1))) - 1))
    (hchain : interiorChain mem s.hasPMP pmpOk ptidxbits ptesize addr
      (if s.privVer110 then (getf s.satp 0 SATP_PPN_WIDTH) <<< PGSHIFT
       else s.sptbr <<< PGSHIFT) levels = true) :
    get_physical_address s mem isRam pmpOk addr acc mmu_idx =
      some (.fail, levels) := by
  unfold get_physical_address
  rw [if_neg (by
    rintro (h | h)
    · exact hmode h
    · rw [hmmu] at h
      cases h)]
  by_cases hpv : s.privVer110 = true
  · rw [if_pos hpv] at hvm
    rw [if_pos hpv] at hchain
    have hvnz := vmParams110_nonzero _ _ _ _ hvm
    simp only [hpv, if_true, if_neg hvnz, hvm]
    rw [if_neg hcanon, ptw_all_interior _ _ _ _ _ _ _ _ _ _ _ _ _ hchain]
  · have hpv' : s.privVer110 = false := by
      revert hpv
      cases s.privVer110 <;> simp
    rw [if_neg hpv] at hvm
    rw [if_neg hpv] at hchain
    have hvnz := vmParamsLegacy_nonzero _ _ _ _ hvm
    simp only [hpv', if_false, Bool.false_eq_true, if_neg hvnz, hvm]
    rw [if_neg hcanon, ptw_all_interior _ _ _ _ _ _ _ _ _ _ _ _ _ hchain]

/-- Concrete Sv39 state and memory for the witness of claim C10:
every PTE word reads as `1` (valid, `R = W = X = 0`). -/
def c10WitState : CPURISCVState :=
  { zeroState with hasMMU := true, satp := 8 <<< 60 }

/-- Witness for claim C10: the Sv39 walk over all-interior page tables
fails after exactly 3 iterations. -/
theorem claim_c10_interior_walk_witness :
    (effMode c10WitState .load PRV_U ≠ PRV_M ∧
      interiorChain (fun _ => 1) c10WitState.hasPMP (fun _ => true) 9 8 0
        (if c10WitState.privVer110 then
          (getf c10WitState.satp 0 SATP_PPN_WIDTH) <<< PGSHIFT
         else c10WitState.sptbr <<< PGSHIFT) 3 = true) ∧
    get_physical_address c10WitState (fun _ => 1) (fun _ => true)
        (fun _ => true) 0 .load PRV_U = some (.fail, 3) :=
  ⟨⟨by decide, by decide⟩,
    claim_c10_interior_walk c10WitState (fun _ => 1) (fun _ => true)
      (fun _ => true) 0 .load PRV_U 3 9 8 (by decide) rfl (by decide)
      (by decide) (by decide)⟩

/-! ## Trap dispatcher (`riscv_cpu_do_interrupt`) -/

/-- The ECALL retargeting of `riscv_cpu_do_interrupt`: a `U_ECALL`
cause is rewritten according to the pre-trap privilege and virt mode. -/
def ecallRetarget (s : CPURISCVState) (cause0 : Nat) : Nat :=
  if s.priv = PRV_M then RISCV_EXCP_M_ECALL
  else if s.priv = PRV_S ∧ riscv_cpu_virt_enabled s = true then
    RISCV_EXCP_VS_ECALL
  else if s.priv = PRV_S ∧ riscv_cpu_virt_enabled s = false then
    RISCV_EXCP_HS_ECALL
  else if s.priv = PRV_U then RISCV_EXCP_U_ECALL
  else cause0

/-- The H-extension block of the S-mode trap arm: stay in VS when the
cause is `hideleg`/`hedeleg`-delegated and forceHS is clear; otherwise
from virt, swap the background registers, update `hstatus`
(SP2V/SP2P/SPV/STL) and leave virt; from non-virt, update only
SP2V/SP2P/SPV. -/
def sTrapPrologue (s : CPURISCVState) (async : Bool) (cause : Nat) :
    CPURISCVState :=
  if s.hasRVH then
    let hdeleg := if async then s.hideleg else s.hedeleg
    if riscv_cpu_virt_enabled s = true ∧ (hdeleg >>> cause) &&& 1 = 1 ∧
        riscv_cpu_force_hs_excep_enabled s = false then
      s
    else if riscv_cpu_virt_enabled s = true then
      let sA := riscv_cpu_swap_background_regs s
      let sB := { sA with hstatus := (setf sA.hstatus HSTATUS_SP2V_SHIFT 1
                    (getf sA.hstatus HSTATUS_SPV_SHIFT 1)) }
      let sC := { sB with hstatus := (setf sB.hstatus HSTATUS_SP2P_SHIFT 1
                    (getf sB.mstatus MSTATUS_SPP_SHIFT 1)) }
      let sD := { sC with hstatus := (setf sC.hstatus HSTATUS_SPV_SHIFT 1
                    (if riscv_cpu_virt_enabled sC then 1 else 0)) }
      let sE := { sD with hstatus := (setf sD.hstatus HSTATUS_STL_SHIFT 1
                    (if riscv_cpu_force_hs_excep_enabled sD then 1 else 0)) }
      let sF := riscv_cpu_set_virt_enabled sE false
      riscv_cpu_set_force_hs_excep sF false
    else
      let sB := { s with hstatus := (setf s.hstatus HSTATUS_SP2V_SHIFT 1
                    (getf s.hstatus HSTATUS_SPV_SHIFT 1)) }
      let sC := { sB with hstatus := (setf sB.hstatus HSTATUS_SP2P_SHIFT 1
                    (getf sB.mstatus MSTATUS_SPP_SHIFT 1)) }
      { sC with hstatus := (setf sC.hstatus HSTATUS_SPV_SHIFT 1
                    (if riscv_cpu_virt_enabled sC then 1 else 0)) }
  else s

/-- The H-extension block of the M-mode trap arm: swap the background
registers when leaving virt, record MPV/MTL in `mstatus`, disable virt. -/
def mTrapPrologue (s : CPURISCVState) : CPURISCVState :=
  if s.hasRVH then
    let sA := if riscv_cpu_virt_enabled s = true then
        riscv_cpu_swap_background_regs s
      else s
    let sB := { sA with mstatus := (setf sA.mstatus MSTATUS_MPV_SHIFT 1
                  (if riscv_cpu_virt_enabled sA then 1 else 0)) }
    let sC := { sB with mstatus := (setf sB.mstatus MSTATUS_MTL_SHIFT 1
                  (if riscv_cpu_force_hs_excep_enabled sB then 1 else 0)) }
    riscv_cpu_set_virt_enabled sC false
  else s

/-- The dispatcher `riscv_cpu_do_interrupt`: the architectural trap-entry transition,
given the `exception_index` the dispatcher was entered with (the final
clearing of `exception_index` itself lives outside the hart state). -/
def riscv_cpu_do_interrupt (s : CPURISCVState) (exception_index : Nat) :
    CPURISCVState :=
  let async : Bool := decide (exception_index &&& RISCV_EXCP_INT_FLAG ≠ 0)
  let cause0 := exception_index &&& RISCV_EXCP_INT_MASK
  let deleg := if async then s.mideleg else s.medeleg
  let tval := if async = false ∧
      (cause0 = 0 ∨ cause0 = 1 ∨ cause0 = 4 ∨ cause0 = 5 ∨ cause0 = 6 ∨
       cause0 = 7 ∨ cause0 = 12 ∨ cause0 = 13 ∨ cause0 = 15)
    then s.badaddr else 0
  let cause := if async = false ∧ cause0 = RISCV_EXCP_U_ECALL then
      ecallRetarget s cause0
    else cause0
  if s.priv ≤ PRV_S ∧ cause < 64 ∧ (deleg >>> cause) &&& 1 = 1 then
    let s1 := sTrapPrologue s async cause
    let m1 := setf s1.mstatus MSTATUS_SPIE_SHIFT 1
      (if s.privVer110 then getf s1.mstatus MSTATUS_SIE_SHIFT 1
       else getf s1.mstatus s1.priv 1)
    let m2 := setf m1 MSTATUS_SPP_SHIFT 1 s.priv
    let m3 := setf m2 MSTATUS_SIE_SHIFT 1 0
    let s2 := { s1 with
      mstatus := m3,
      scause := cause ||| ((if async then 1 else 0) <<< 63),
      sepc := s.pc,
      sbadaddr := tval,
      pc := ((s1.stvec >>> 2) <<< 2) +
        (if async = true ∧ s1.stvec &&& 3 = 1 then cause * 4 else 0) }
    riscv_cpu_set_mode s2 PRV_S
  else
    let s1 := mTrapPrologue s
    let m1 := setf s1.mstatus MSTATUS_MPIE_SHIFT 1
      (if s.privVer110 then getf s1.mstatus MSTATUS_MIE_SHIFT 1
       else getf s1.mstatus s1.priv 1)
    let m2 := setf m1 MSTATUS_MPP_SHIFT 2 s.priv
    let m3 := setf m2 MSTATUS_MIE_SHIFT 1 0
    let s2 := { s1 with
      mstatus := m3,
      mcause := cause ||| (M64 ^^^ (M64 >>> (if async then 1 else 0))),
      mepc := s.pc,
      mbadaddr := tval,
      pc := ((s1.mtvec >>> 2) <<< 2) +
        (if async = true ∧ s1.mtvec &&& 3 = 1 then cause * 4 else 0) }
    riscv_cpu_set_mode s2 PRV_M

/-- The background swap leaves `mstatus.MIE` alone (bit 3 is not in the
swap mask). -/
theorem swap_preserves_mstatus_mie (s : CPURISCVState) :
    getf (riscv_cpu_swap_background_regs s).mstatus MSTATUS_MIE_SHIFT 1 =
      getf s.mstatus MSTATUS_MIE_SHIFT 1 := by
  have h : (riscv_cpu_swap_background_regs s).mstatus =
      (s.mstatus &&& (M64 ^^^ mstatusSwapMask)) |||
        (s.vsstatus &&& mstatusSwapMask) := rfl
  rw [h]
  apply getf_maskmix_keep
  · decide
  · intro j hj
    interval_cases j
    decide

/-- Setter `riscv_cpu_set_virt_enabled` only changes the `virt` word. -/
theorem setVirt_mtvec (x : CPURISCVState) (b : Bool) :
    (riscv_cpu_set_virt_enabled x b).mtvec = x.mtvec := by
  unfold riscv_cpu_set_virt_enabled
  split <;> rfl

theorem setVirt_mstatus (x : CPURISCVState) (b : Bool) :
    (riscv_cpu_set_virt_enabled x b).mstatus = x.mstatus := by
  unfold riscv_cpu_set_virt_enabled
  split <;> rfl

/-- The M-mode trap prologue leaves `mtvec` alone. -/
theorem mTrapPrologue_mtvec (s : CPURISCVState) :
    (mTrapPrologue s).mtvec = s.mtvec := by
  unfold mTrapPrologue
  cases hr : s.hasRVH
  · simp
  · rw [if_pos rfl, setVirt_mtvec]
    by_cases hv : riscv_cpu_virt_enabled s = true
    · rw [if_pos hv]
      rfl
    · rw [if_neg hv]

/-- The M-mode trap prologue leaves `mstatus.MIE` alone. -/
theorem mTrapPrologue_mie (s : CPURISCVState) :
    getf (mTrapPrologue s).mstatus MSTATUS_MIE_SHIFT 1 =
      getf s.mstatus MSTATUS_MIE_SHIFT 1 := by
  unfold mTrapPrologue
  cases hr : s.hasRVH
  · simp
  · rw [if_pos rfl, setVirt_mstatus]
    show getf (setf (setf _ MSTATUS_MPV_SHIFT 1 _) MSTATUS_MTL_SHIFT 1 _)
      MSTATUS_MIE_SHIFT 1 = _
    rw [getf_setf_disjoint _ MSTATUS_MTL_SHIFT 1 _ MSTATUS_MIE_SHIFT 1
        (by decide) (by decide) (by decide),
      getf_setf_disjoint _ MSTATUS_MPV_SHIFT 1 _ MSTATUS_MIE_SHIFT 1
        (by decide) (by decide) (by decide)]
    by_cases hv : riscv_cpu_virt_enabled s = true
    · rw [if_pos hv]
      exact swap_preserves_mstatus_mie s
    · rw [if_neg hv]

/-- Helper: a one-bit field is unchanged by masking with `2^1 - 1`. -/
theorem getf_land_one (x sh : Nat) :
    getf x sh 1 &&& (2 ^ 1 - 1) = getf x sh 1 := by
  unfold getf
  rw [Nat.land_assoc, Nat.and_self]

/-- Claim C2 (amended): on privileged version ≥ 1.10, for a synchronous
cause `c ≤ 15` whose `medeleg` bit is clear and which is not an ECALL
retargeted away from `c` (i.e. `c = U_ECALL` only from U-mode), the trap
enters M-mode with `mepc = pc`, `mcause = c` (async bit clear),
`mstatus.MPP = priv`, `mstatus.MPIE = mstatus.MIE`, `mstatus.MIE = 0`,
`priv = M` and `pc = mtvec & ~3`. -/
theorem claim_c2_trap_entry (s : CPURISCVState) (c : Nat)
    (hpv : s.privVer110 = true)
    (hp : s.priv = PRV_U ∨ s.priv = PRV_S ∨ s.priv = PRV_M)
    (hc : c ≤ 15)
    (hd : (s.medeleg >>> c) &&& 1 = 0)
    (he : c = RISCV_EXCP_U_ECALL → s.priv = PRV_U)
    (hb : s.mtvec < 2 ^ 64) :
    (riscv_cpu_do_interrupt s c).mepc = s.pc ∧
    getf (riscv_cpu_do_interrupt s c).mcause 0 63 = c ∧
    getf (riscv_cpu_do_interrupt s c).mcause 63 1 = 0 ∧
    getf (riscv_cpu_do_interrupt s c).mstatus MSTATUS_MPP_SHIFT 2 =
      s.priv ∧
    getf (riscv_cpu_do_interrupt s c).mstatus MSTATUS_MPIE_SHIFT 1 =
      getf s.mstatus MSTATUS_MIE_SHIFT 1 ∧
    getf (riscv_cpu_do_interrupt s c).mstatus MSTATUS_MIE_SHIFT 1 = 0 ∧
    (riscv_cpu_do_interrupt s c).priv = PRV_M ∧
    (riscv_cpu_do_interrupt s c).pc = s.mtvec &&& (M64 ^^^ 3) := by
  have h31 : c < 2 ^ 31 := by
    have h15 : (15 : Nat) < 2 ^ 31 := by norm_num
    omega
  have hflag : decide (c &&& RISCV_EXCP_INT_FLAG ≠ 0) = false := by
    rw [land_flag_eq_zero c h31]
    decide
  have hmask : c &&& RISCV_EXCP_INT_MASK = c := land_int_mask c h31
  have hret : (if c = RISCV_EXCP_U_ECALL then ecallRetarget s c else c) =
      c := by
    by_cases hc8 : c = RISCV_EXCP_U_ECALL
    · have hu := he hc8
      rw [if_pos hc8, hc8]
      simp [ecallRetarget, hu, PRV_U, PRV_S, PRV_M]
    · rw [if_neg hc8]
  have hdeleg : ¬ (s.priv ≤ PRV_S ∧ c < 64 ∧
      (s.medeleg >>> c) &&& 1 = 1) := by
    rintro ⟨-, -, h1⟩
    rw [hd] at h1
    exact absurd h1 (by norm_num)
  unfold riscv_cpu_do_interrupt
  simp only [hflag, hmask, hpv, Bool.false_eq_true, false_and,
    eq_self_iff_true, true_and, if_false, if_true, Nat.add_zero]
  rw [hret, if_neg hdeleg]
  have hm0 : M64 ^^^ (M64 >>> 0) = 0 := by decide
  refine ⟨rfl, ?_, ?_, ?_, ?_, ?_, rfl, ?_⟩
  · show getf (c ||| (M64 ^^^ (M64 >>> 0))) 0 63 = c
    rw [hm0, Nat.or_zero]
    unfold getf
    rw [Nat.shiftRight_zero]
    exact land_low c 63 (by
      have h63 : (15 : Nat) < 2 ^ 63 := by norm_num
      omega)
  · show getf (c ||| (M64 ^^^ (M64 >>> 0))) 63 1 = 0
    rw [hm0, Nat.or_zero]
    unfold getf
    have hsr : c >>> 63 = 0 := by
      rw [Nat.shiftRight_eq_div_pow]
      apply Nat.div_eq_of_lt
      have h63 : (15 : Nat) < 2 ^ 63 := by norm_num
      omega
    rw [hsr, Nat.zero_and]
  · show getf (setf (setf (setf (mTrapPrologue s).mstatus
        MSTATUS_MPIE_SHIFT 1
        (getf (mTrapPrologue s).mstatus MSTATUS_MIE_SHIFT 1))
        MSTATUS_MPP_SHIFT 2 s.priv) MSTATUS_MIE_SHIFT 1 0)
        MSTATUS_MPP_SHIFT 2 = s.priv
    rw [getf_setf_disjoint _ MSTATUS_MIE_SHIFT 1 _ MSTATUS_MPP_SHIFT 2
        (by decide) (by decide) (by decide),
      getf_setf_self _ _ _ _ (by decide)]
    rcases hp with hp | hp | hp <;> rw [hp] <;> decide
  · show getf (setf (setf (setf (mTrapPrologue s).mstatus
        MSTATUS_MPIE_SHIFT 1
        (getf (mTrapPrologue s).mstatus MSTATUS_MIE_SHIFT 1))
        MSTATUS_MPP_SHIFT 2 s.priv) MSTATUS_MIE_SHIFT 1 0)
        MSTATUS_MPIE_SHIFT 1 = getf s.mstatus MSTATUS_MIE_SHIFT 1
    rw [getf_setf_disjoint _ MSTATUS_MIE_SHIFT 1 _ MSTATUS_MPIE_SHIFT 1
        (by decide) (by decide) (by decide),
      getf_setf_disjoint _ MSTATUS_MPP_SHIFT 2 _ MSTATUS_MPIE_SHIFT 1
        (by decide) (by decide) (by decide),
      getf_setf_self _ _ _ _ (by decide),
      getf_land_one, mTrapPrologue_mie]
  · show getf (setf (setf (setf (mTrapPrologue s).mstatus
        MSTATUS_MPIE_SHIFT 1
        (getf (mTrapPrologue s).mstatus MSTATUS_MIE_SHIFT 1))
        MSTATUS_MPP_SHIFT 2 s.priv) MSTATUS_MIE_SHIFT 1 0)
        MSTATUS_MIE_SHIFT 1 = 0
    rw [getf_setf_self _ _ _ _ (by decide), Nat.zero_and]
  · show ((mTrapPrologue s).mtvec >>> 2) <<< 2 = s.mtvec &&& (M64 ^^^ 3)
    rw [mTrapPrologue_mtvec, shiftr2_shiftl2 s.mtvec hb]

/-- State refuting claim C2 as stated: legacy privileged version with
`mstatus.MIE = 1` (bit 0, the legacy prior-enable source, is 0). -/
def c2State : CPURISCVState :=
  { zeroState with privVer110 := false, mstatus := 8 }

/-- Claim C2 (counterexample): at a legacy (`priv_ver < 1.10`) pre-state
with `mstatus.MIE = 1`, taking the undelegated synchronous cause 2, the
code writes `mstatus.MPIE` from `mstatus` bit `UIE << priv` (here 0)
instead of `mstatus.MIE` (here 1), so the claimed conjunction fails. -/
theorem claim_c2_counterexample :
    (2 : Nat) ≤ 15 ∧ (c2State.medeleg >>> 2) &&& 1 = 0 ∧
    ¬ ((riscv_cpu_do_interrupt c2State 2).mepc = c2State.pc ∧
       getf (riscv_cpu_do_interrupt c2State 2).mcause 0 63 = 2 ∧
       getf (riscv_cpu_do_interrupt c2State 2).mcause 63 1 = 0 ∧
       getf (riscv_cpu_do_interrupt c2State 2).mstatus
         MSTATUS_MPP_SHIFT 2 = c2State.priv ∧
       getf (riscv_cpu_do_interrupt c2State 2).mstatus
         MSTATUS_MPIE_SHIFT 1 =
         getf c2State.mstatus MSTATUS_MIE_SHIFT 1 ∧
       getf (riscv_cpu_do_interrupt c2State 2).mstatus
         MSTATUS_MIE_SHIFT 1 = 0 ∧
       (riscv_cpu_do_interrupt c2State 2).priv = PRV_M ∧
       (riscv_cpu_do_interrupt c2State 2).pc =
         c2State.mtvec &&& (M64 ^^^ 3)) := by
  decide

/-- Witness for the amended claim C2 at a concrete modern state. -/
theorem claim_c2_trap_entry_witness :
    ({ zeroState with mstatus := 8, mtvec := 0x100, pc := 0x8000
        }.privVer110 = true ∧ (2 : Nat) ≤ 15) ∧
    ((riscv_cpu_do_interrupt
        { zeroState with mstatus := 8, mtvec := 0x100, pc := 0x8000 }
        2).mepc =
      { zeroState with mstatus := 8, mtvec := 0x100, pc := 0x8000 }.pc ∧
     getf (riscv_cpu_do_interrupt
        { zeroState with mstatus := 8, mtvec := 0x100, pc := 0x8000 }
        2).mcause 0 63 = 2 ∧
     getf (riscv_cpu_do_interrupt
        { zeroState with mstatus := 8, mtvec := 0x100, pc := 0x8000 }
        2).mcause 63 1 = 0 ∧
     getf (riscv_cpu_do_interrupt
        { zeroState with mstatus := 8, mtvec := 0x100, pc := 0x8000 }
        2).mstatus MSTATUS_MPP_SHIFT 2 =
      { zeroState with mstatus := 8, mtvec := 0x100, pc := 0x8000 }.priv ∧
     getf (riscv_cpu_do_interrupt
        { zeroState with mstatus := 8, mtvec := 0x100, pc := 0x8000 }
        2).mstatus MSTATUS_MPIE_SHIFT 1 =
      getf { zeroState with mstatus := 8, mtvec := 0x100, pc := 0x8000
        }.mstatus MSTATUS_MIE_SHIFT 1 ∧
     getf (riscv_cpu_do_interrupt
        { zeroState with mstatus := 8, mtvec := 0x100, pc := 0x8000 }
        2).mstatus MSTATUS_MIE_SHIFT 1 = 0 ∧
     (riscv_cpu_do_interrupt
        { zeroState with mstatus := 8, mtvec := 0x100, pc := 0x8000 }
        2).priv = PRV_M ∧
     (riscv_cpu_do_interrupt
        { zeroState with mstatus := 8, mtvec := 0x100, pc := 0x8000 }
        2).pc =
      { zeroState with mstatus := 8, mtvec := 0x100, pc := 0x8000
        }.mtvec &&& (M64 ^^^ 3)) :=
  ⟨⟨rfl, by decide⟩,
    claim_c2_trap_entry
      { zeroState with mstatus := 8, mtvec := 0x100, pc := 0x8000 } 2
      rfl (Or.inl rfl) (by decide) (by decide) (by decide) (by decide)⟩

/-- Claim C6: a `U_ECALL` cause is retargeted to `M_ECALL` from M-mode,
`VS_ECALL` from S-mode with virt on, `HS_ECALL` from S-mode with virt
off, and kept from U-mode; in particular from S-mode with virt on the
recorded `scause`/`mcause` is `VS_ECALL`. -/
theorem claim_c6_ecall_retarget (s : CPURISCVState)
    (hp : s.priv = PRV_U ∨ s.priv = PRV_S ∨ s.priv = PRV_M) :
    (s.priv = PRV_M →
      ecallRetarget s RISCV_EXCP_U_ECALL = RISCV_EXCP_M_ECALL) ∧
    (s.priv = PRV_S ∧ riscv_cpu_virt_enabled s = true →
      ecallRetarget s RISCV_EXCP_U_ECALL = RISCV_EXCP_VS_ECALL) ∧
    (s.priv = PRV_S ∧ riscv_cpu_virt_enabled s = false →
      ecallRetarget s RISCV_EXCP_U_ECALL = RISCV_EXCP_HS_ECALL) ∧
    (s.priv = PRV_U →
      ecallRetarget s RISCV_EXCP_U_ECALL = RISCV_EXCP_U_ECALL) ∧
    (s.priv = PRV_S ∧ riscv_cpu_virt_enabled s = true →
      (if (s.medeleg >>> RISCV_EXCP_VS_ECALL) &&& 1 = 1
       then (riscv_cpu_do_interrupt s RISCV_EXCP_U_ECALL).scause
       else (riscv_cpu_do_interrupt s RISCV_EXCP_U_ECALL).mcause) =
      RISCV_EXCP_VS_ECALL) := by
  refine ⟨?_, ?_, ?_, ?_, ?_⟩
  · intro hm
    simp [ecallRetarget, hm, PRV_M]
  · rintro ⟨h1, hv⟩
    simp [ecallRetarget, h1, hv, PRV_S, PRV_M]
  · rintro ⟨h1, hv⟩
    simp [ecallRetarget, h1, hv, PRV_S, PRV_M]
  · intro hu
    simp [ecallRetarget, hu, PRV_U, PRV_S, PRV_M]
  · rintro ⟨h1, hv⟩
    have hflag :
        decide ((RISCV_EXCP_U_ECALL : Nat) &&& RISCV_EXCP_INT_FLAG ≠ 0) =
          false := by decide
    have hmask :
        (RISCV_EXCP_U_ECALL : Nat) &&& RISCV_EXCP_INT_MASK =
          RISCV_EXCP_U_ECALL := by decide
    have hretv : ecallRetarget s RISCV_EXCP_U_ECALL =
        RISCV_EXCP_VS_ECALL := by
      simp [ecallRetarget, h1, hv, PRV_S, PRV_M]
    unfold riscv_cpu_do_interrupt
    simp only [hflag, hmask, Bool.false_eq_true, false_and,
      eq_self_iff_true, true_and, if_false, if_true, Nat.add_zero]
    rw [hretv]
    by_cases hdel : (s.medeleg >>> RISCV_EXCP_VS_ECALL) &&& 1 = 1
    · rw [if_pos hdel,
        if_pos (show s.priv ≤ PRV_S ∧ RISCV_EXCP_VS_ECALL < 64 ∧
          (s.medeleg >>> RISCV_EXCP_VS_ECALL) &&& 1 = 1 from
          ⟨by simp [h1, PRV_S], by decide, hdel⟩)]
      show RISCV_EXCP_VS_ECALL ||| 0 <<< 63 = RISCV_EXCP_VS_ECALL
      rw [Nat.zero_shiftLeft, Nat.or_zero]
    · rw [if_neg hdel,
        if_neg (show ¬ (s.priv ≤ PRV_S ∧ RISCV_EXCP_VS_ECALL < 64 ∧
          (s.medeleg >>> RISCV_EXCP_VS_ECALL) &&& 1 = 1) from by
          rintro ⟨-, -, hx⟩
          exact hdel hx)]
      show RISCV_EXCP_VS_ECALL ||| (M64 ^^^ (M64 >>> 0)) =
        RISCV_EXCP_VS_ECALL
      rw [show M64 ^^^ (M64 >>> 0) = 0 from by decide, Nat.or_zero]

/-- Witness for claim C6 from S-mode with virt on. -/
theorem claim_c6_ecall_retarget_witness :
    ({ zeroState with priv := 1, hasRVH := true, virt := 1 }.priv =
        PRV_U ∨
      { zeroState with priv := 1, hasRVH := true, virt := 1 }.priv =
        PRV_S ∨
      { zeroState with priv := 1, hasRVH := true, virt := 1 }.priv =
        PRV_M) ∧
    (({ zeroState with priv := 1, hasRVH := true, virt := 1 }.priv =
          PRV_S ∧
        riscv_cpu_virt_enabled
          { zeroState with priv := 1, hasRVH := true, virt := 1 } =
          true →
      (if ({ zeroState with priv := 1, hasRVH := true, virt := 1
            }.medeleg >>> RISCV_EXCP_VS_ECALL) &&& 1 = 1
       then (riscv_cpu_do_interrupt
          { zeroState with priv := 1, hasRVH := true, virt := 1 }
          RISCV_EXCP_U_ECALL).scause
       else (riscv_cpu_do_interrupt
          { zeroState with priv := 1, hasRVH := true, virt := 1 }
          RISCV_EXCP_U_ECALL).mcause) = RISCV_EXCP_VS_ECALL)) :=
  ⟨Or.inr (Or.inl rfl),
    (claim_c6_ecall_retarget
      { zeroState with priv := 1, hasRVH := true, virt := 1 }
      (Or.inr (Or.inl rfl))).2.2.2.2⟩
